import Mathlib

/-!
Verification of the talent-match dashboard glue code.

The repository consists of two near-duplicate single-page dashboards
(src/streamlit_app/app.py and src/notebooks/app.py).  This development
embeds the pure content of their operations: the ranking pipeline built
from a match-result DataFrame, the ILIKE employee lookup, the multiselect
benchmark gate, the configuration loaders, the job-profile generator, and
the error plumbing of the boundary functions.  Effectful calls (HTTP,
database, widget rendering) are embedded by passing their outcomes as
explicit parameters and recording displayed widgets and raised exceptions
as data.
-/

namespace TalentMatch

/-- One row of the match-result DataFrame returned by the talent_match.sql
score query (spec section 3).  Multiple rows exist per employee, one per
tv_name.  Rates and scores are numeric; we embed them as rationals. -/
structure MatchRow where
  employee_id : Nat
  fullname : String
  position : String
  final_match_rate : ℚ
  tgv_name : String
  tv_name : String
  baseline_score : ℚ
  user_score : ℚ
  tv_match_rate : ℚ
  tgv_match_rate : ℚ
deriving DecidableEq

/-- The four columns selected by the ranking pipeline
(streamlit_app/app.py line 274). -/
structure RankedEntry where
  employee_id : Nat
  fullname : String
  position : String
  final_match_rate : ℚ
deriving DecidableEq

/-- Column selection df[["employee_id", "fullname", "position",
"final_match_rate"]] (streamlit_app/app.py line 274). -/
def selectCols (df : List MatchRow) : List RankedEntry :=
  df.map (fun r => ⟨r.employee_id, r.fullname, r.position, r.final_match_rate⟩)

/-- pandas drop_duplicates(subset=["employee_id"]) with the default
keep="first": the first row of every employee_id survives, in arrival
order.  The accumulator holds the ids already seen. -/
def dropDupFirstAux (seen : List Nat) : List RankedEntry → List RankedEntry
  | [] => []
  | r :: rs =>
    if r.employee_id ∈ seen then dropDupFirstAux seen rs
    else r :: dropDupFirstAux (r.employee_id :: seen) rs

/-- Deduplicated entries, one per employee, in first-appearance order
(streamlit_app/app.py line 275). -/
def dedupEntries (df : List MatchRow) : List RankedEntry :=
  dropDupFirstAux [] (selectCols df)

/-- The distinct employee_id values of the DataFrame, in first-appearance
order. -/
def eraseDupFirstAux (seen : List Nat) : List Nat → List Nat
  | [] => []
  | x :: xs =>
    if x ∈ seen then eraseDupFirstAux seen xs
    else x :: eraseDupFirstAux (x :: seen) xs

/-- Distinct employee ids of a match-result DataFrame, first-appearance
order. -/
def distinctIds (df : List MatchRow) : List Nat :=
  eraseDupFirstAux [] (df.map (fun r => r.employee_id))

/-- Generic stable insertion: a is placed before the first element x with
le a x.  With le a x meaning "a may come before x", the sort below is
stable: an element inserted later never jumps before an equal element
inserted earlier. -/
def insertSorted (le : α → α → Bool) (a : α) : List α → List α
  | [] => [a]
  | x :: xs => if le a x then a :: x :: xs else x :: insertSorted le a xs

/-- Stable insertion sort. -/
def insertionSort (le : α → α → Bool) : List α → List α
  | [] => []
  | x :: xs => insertSorted le x (insertionSort le xs)

/-- Ordering used by sort_values("final_match_rate", ascending=False):
a may come before b when its rate is at least the rate of b. -/
def rateGE (a b : RankedEntry) : Bool :=
  decide (b.final_match_rate ≤ a.final_match_rate)

/-- The ranked candidate list before the Rank column is attached:
select columns, drop duplicate employees, sort by descending
final_match_rate (streamlit_app/app.py lines 273-278).
reset_index(drop=True) does not reorder rows and is the identity here.
The sort is modeled by an insertion sort on rateGE; pandas uses its
default kind="quicksort", which guarantees nothing about the relative
order of tied rows, so only conclusions that hold for every correct
descending sort are stated over this definition. -/
def rankedBase (df : List MatchRow) : List RankedEntry :=
  insertionSort rateGE (dedupEntries df)

/-- ranked_employees.insert(0, "Rank", range(1, len + 1))
(streamlit_app/app.py line 281): attach 1-based ranks in row order. -/
def attachRanks (n : Nat) : List RankedEntry → List (Nat × RankedEntry)
  | [] => []
  | e :: es => (n, e) :: attachRanks (n + 1) es

/-- The rendered ranking table: Rank column plus the four selected
columns, one row per unique employee, descending final_match_rate
(streamlit_app/app.py lines 273-287). -/
def ranked_employees (df : List MatchRow) : List (Nat × RankedEntry) :=
  attachRanks 1 (rankedBase df)

/-- An employee row joined with its dim_positions name
(streamlit_app/app.py lines 187-197): employees e JOIN dim_positions dp ON
e.position_id = dp.position_id exposes employee_id and the position
name. -/
structure Employee where
  employee_id : Nat
  fullname : String
  position : String
deriving DecidableEq

/-- Case-insensitive character comparison, as performed by ILIKE. -/
def charEqCI (a b : Char) : Bool := a.toLower == b.toLower

/-- SQL LIKE/ILIKE pattern matching over character lists: a percent sign
matches any sequence, an underscore matches any single character, a
backslash (the default LIKE escape character in PostgreSQL) makes the
next pattern character match literally (still case-insensitively under
ILIKE), and every other pattern character matches case-insensitively
(dp.name ILIKE :role_pattern, streamlit_app/app.py line 195).  The esc
flag records that the previous pattern character was an unconsumed
backslash.  A pattern ending in a lone escape character is an error in
PostgreSQL; it is embedded as matching nothing. -/
def likeMatchL (esc : Bool) : List Char → List Char → Bool
  | [], s => !esc && s.isEmpty
  | c :: ps, s =>
    if esc then
      match s with
      | [] => false
      | b :: s2 => charEqCI c b && likeMatchL false ps s2
    else if c == '%' then s.tails.any (fun t => likeMatchL false ps t)
    else if c == '\\' then likeMatchL true ps s
    else
      match s with
      | [] => false
      | b :: s2 => (if c == '_' then true else charEqCI c b) && likeMatchL false ps s2

/-- Postgres ILIKE on whole strings. -/
def ilike (pat s : String) : Bool := likeMatchL false pat.data s.data

/-- Ascending order on employee ids, the ORDER BY e.employee_id of the
lookup query (streamlit_app/app.py line 196). -/
def idLE (a b : Employee) : Bool := decide (a.employee_id ≤ b.employee_id)

/-- The sql_filter lookup (streamlit_app/app.py lines 187-203): rows of
the employees/dim_positions join whose position name matches the pattern
percent-role-percent under ILIKE, ordered by employee_id ascending. -/
def sql_filter_rows (roleName : String) (db : List Employee) : List Employee :=
  insertionSort idLE (db.filter (fun e => ilike ("%" ++ roleName ++ "%") e.position))

/-- The option list handed to the benchmark multiselect:
emp_df["employee_id"].tolist() (streamlit_app/app.py lines 204-210). -/
def emp_ids_options (roleName : String) (db : List Employee) : List Nat :=
  (sql_filter_rows roleName db).map (fun e => e.employee_id)

/-- st.multiselect with max_selections=3: whatever the user attempts, the
returned selection is drawn from the offered options, in option-click
order, and the widget refuses a fourth selection. -/
def multiselectPick (options chosen : List Nat) : List Nat :=
  (chosen.filter (fun x => x ∈ options)).take 3

/-- The benchmark_ids value produced by the sidebar for a successful
lookup (streamlit_app/app.py lines 207-212). -/
def benchmark_ids (roleName : String) (db : List Employee) (chosen : List Nat) : List Nat :=
  multiselectPick (emp_ids_options roleName db) chosen

/-- Python truthiness of an optional string: None and the empty string
are falsy. -/
def truthy : Option String → Bool
  | none => false
  | some s => !s.isEmpty

/-- Observable events of a dashboard run, used to state which external
calls a given control path performs. -/
inductive AppEvent
  | configStop
  | dbConnect
  | infoPrompt
  | groqCall
  | talentQuery
deriving DecidableEq

/-- Widgets rendered to the user, used to state what the sidebar and the
tabs display. -/
inductive Widget
  | infoW (msg : String)
  | warningW (msg : String)
  | errorW (msg : String)
  | multiselectW (options : List Nat)
  | markdownW (msg : String)
deriving DecidableEq

/-- Outcome of one Python function call: a normal return, a script stop
issued by st.stop, or a propagated exception. -/
inductive FnOutcome (α : Type)
  | ok (a : α)
  | stopped
  | raised (e : String)
deriving DecidableEq

/-- The required configuration keys of the streamlit dashboard
(streamlit_app/app.py lines 25-38). -/
def requiredKeys : List String :=
  ["SUPABASE_URL", "SUPABASE_KEY", "GROQ_API_KEY", "DATABASE_URL"]

/-- The source load_config reads from: the local env file when it
exists (os.getenv after load_dotenv), the secrets store otherwise
(streamlit_app/app.py lines 23-38). -/
def configLookup (envFile : Option (String → Option String))
    (secrets : String → Option String) : String → Option String :=
  match envFile with
  | some f => f
  | none => secrets

/-- load_config (streamlit_app/app.py lines 15-50): when the local env
file exists its values are used, otherwise the secrets store; any falsy
required value puts the key on the missing list and a nonempty missing
list stops the script (returns none). -/
def load_config (envFile : Option (String → Option String))
    (secrets : String → Option String) : Option (String → Option String) :=
  if (requiredKeys.filter (fun k => !truthy (configLookup envFile secrets k))).isEmpty
  then some (configLookup envFile secrets) else none

/-- The module-level startup sequence of the streamlit dashboard
(streamlit_app/app.py lines 53-83): load_config runs first; only when it
returns does the cached engine get created and tested against the
database. -/
def appStartup (envFile : Option (String → Option String))
    (secrets : String → Option String) : List AppEvent :=
  match load_config envFile secrets with
  | none => [AppEvent.configStop]
  | some _ => [AppEvent.dbConnect]

/-- The notebook configuration block (notebooks/app.py lines 11-29): when
the env file exists the three values are read with os.getenv and never
validated; otherwise they are read from st.secrets by indexing, whose
KeyError on an absent key is caught and turned into st.stop (none). -/
def nb_load_config (envFileExists : Bool) (envFile : String → Option String)
    (secrets : String → Option String) :
    Option (Option String × Option String × Option String) :=
  if envFileExists then
    some (envFile "SUPABASE_URL", envFile "SUPABASE_SERVICE_KEY", envFile "GROQ_API_KEY")
  else
    match secrets "SUPABASE_URL" with
    | none => none
    | some u =>
      match secrets "SUPABASE_SERVICE_KEY" with
      | none => none
      | some k =>
        match secrets "GROQ_API_KEY" with
        | none => none
        | some g => some (some u, some k, some g)

/-- Outcome of the single blocking HTTP POST to the completion API: either
the transport layer raised, or a response arrived with a status code and
a body.  The body is abstracted to its choices field: none when the field
is absent, and each choice is the content string when the nested
message/content fields are present, none when they are malformed. -/
inductive HttpOutcome
  | transportError (msg : String)
  | response (status : Nat) (choices : Option (List (Option String)))
deriving DecidableEq

/-- The fixed fallback string of the dashboard generator
(streamlit_app/app.py line 159). -/
def fallbackProfile : String := "Error generating job profile. Please try again."

/-- generate_job_profile of the streamlit dashboard (streamlit_app/app.py
lines 122-159): requests.post inside a bare try/except; raise_for_status
raises on any 4xx or 5xx status; the subscript chain into
choices[0].message.content raises KeyError or IndexError on a malformed
body; every exception is caught and the one fixed fallback string is
returned. -/
def generate_job_profile (api : HttpOutcome) : String :=
  match api with
  | HttpOutcome.transportError _ => fallbackProfile
  | HttpOutcome.response status choices =>
    if 400 ≤ status then fallbackProfile
    else
      match choices with
      | none => fallbackProfile
      | some [] => fallbackProfile
      | some (none :: _) => fallbackProfile
      | some (some c :: _) => c

/-- Fallback string of the notebook generator for a missing API key
(notebooks/app.py line 92). -/
def nbNoKeyMsg : String :=
  "Error: GROQ_API_KEY not configured. Cannot generate job profile."

/-- Fallback string of the notebook generator for request failures
(notebooks/app.py line 118). -/
def nbRequestErrMsg : String :=
  "Error: Failed to connect to or get a response from the Groq API."

/-- Fallback string of the notebook generator for a body without a
choices field (notebooks/app.py line 113). -/
def nbNoChoicesMsg : String := "Error: No job profile generated."

/-- generate_job_profile of the notebook (notebooks/app.py lines 90-118):
a falsy API key short-circuits; only requests.exceptions.RequestException
is caught (transport errors and the HTTPError of raise_for_status); a
missing choices field is checked explicitly; but indexing an empty
choices list raises IndexError and a choice without message/content
raises KeyError, neither of which is a RequestException, so both
propagate. -/
def nb_generate_job_profile (apiKey : Option String) (api : HttpOutcome) :
    FnOutcome String :=
  if truthy apiKey = false then FnOutcome.ok nbNoKeyMsg
  else
    match api with
    | HttpOutcome.transportError _ => FnOutcome.ok nbRequestErrMsg
    | HttpOutcome.response status choices =>
      if 400 ≤ status then FnOutcome.ok nbRequestErrMsg
      else
        match choices with
        | none => FnOutcome.ok nbNoChoicesMsg
        | some [] => FnOutcome.raised "IndexError"
        | some (none :: _) => FnOutcome.raised "KeyError"
        | some (some c :: _) => FnOutcome.ok c

/-- Exceptions of the SQL file loader. -/
inductive PyErr
  | fileNotFound (name : String)
  | other (msg : String)
deriving DecidableEq

/-- load_sql (streamlit_app/app.py lines 89-106): both except branches
display an error and call st.stop, so the function never propagates its
exception.  The first component is the displayed message, the second the
call outcome. -/
def load_sql (file : Except PyErr String) : Option String × FnOutcome String :=
  match file with
  | Except.ok s => (none, FnOutcome.ok s)
  | Except.error (PyErr.fileNotFound n) =>
    (some ("SQL file not found: queries/" ++ n), FnOutcome.stopped)
  | Except.error (PyErr.other m) =>
    (some ("Error loading SQL file: " ++ m), FnOutcome.stopped)

/-- The message displayed by run_query on a failing execution
(streamlit_app/app.py line 119). -/
def queryErrorMsg (e : String) : String := "Query execution error: " ++ e

/-- run_query (streamlit_app/app.py lines 108-120): the except branch
displays the error and then executes a bare raise, re-raising the caught
exception to the caller. -/
def run_query (exec : Except String (List MatchRow)) :
    Option String × FnOutcome (List MatchRow) :=
  match exec with
  | Except.ok df => (none, FnOutcome.ok df)
  | Except.error e => (some (queryErrorMsg e), FnOutcome.raised e)

/-- True exactly when a call outcome is a propagated exception. -/
def propagates : FnOutcome α → Bool
  | FnOutcome.raised _ => true
  | _ => false

/-- The analysis tab (streamlit_app/app.py lines 253-264): load the SQL
file, run the score query, build the ranking.  Neither call site wraps
the calls in its own try/except, so a stop stops the tab and a re-raised
query exception propagates out of the interaction uncaught. -/
def tab2_outcome (sqlFile : Except PyErr String)
    (exec : Except String (List MatchRow)) :
    FnOutcome (List (Nat × RankedEntry)) :=
  match (load_sql sqlFile).2 with
  | FnOutcome.stopped => FnOutcome.stopped
  | FnOutcome.raised e => FnOutcome.raised e
  | FnOutcome.ok _ =>
    match (run_query exec).2 with
    | FnOutcome.stopped => FnOutcome.stopped
    | FnOutcome.raised e => FnOutcome.raised e
    | FnOutcome.ok df => FnOutcome.ok (ranked_employees df)

/-- The sidebar prompt shown while no role name is entered
(streamlit_app/app.py line 223). -/
def sidebarInfoMsg : String :=
  "Enter a Role Name above to load matching benchmark employees."

/-- Message of the sidebar except branch (streamlit_app/app.py
line 215). -/
def loadIdsErrorMsg (e : String) : String :=
  "Error loading filtered employee IDs: " ++ e

/-- Warning shown when the lookup returned no employees
(streamlit_app/app.py line 219). -/
def noEmployeesMsg (roleName : String) : String :=
  "No benchmark employees found for the role: " ++ roleName

/-- The sidebar (streamlit_app/app.py lines 184-224).  With a nonempty
role name and a successful lookup the multiselect is always rendered over
the returned ids, followed by a warning when that list is empty.  When
run_query raises, the except branch displays a second error and sets
benchmark_ids to the empty list, but the following check reads the name
emp_ids that was never bound, so the script run dies with a NameError. -/
def sidebar (roleName : String) (lookup : Except String (List Employee))
    (chosen : List Nat) : List Widget × FnOutcome (List Nat) :=
  if roleName = "" then ([Widget.infoW sidebarInfoMsg], FnOutcome.ok [])
  else
    match lookup with
    | Except.error e =>
      ([Widget.errorW (queryErrorMsg e), Widget.errorW (loadIdsErrorMsg e)],
        FnOutcome.raised "NameError: name emp_ids is not defined")
    | Except.ok emps =>
      let ids := emps.map (fun e => e.employee_id)
      (Widget.multiselectW ids ::
        (if ids = [] then [Widget.warningW (noEmployeesMsg roleName)] else []),
        FnOutcome.ok (multiselectPick ids chosen))

/-- The sidebar on a database snapshot, with the lookup succeeding. -/
def sidebarOnDb (roleName : String) (db : List Employee) (chosen : List Nat) :
    List Widget × FnOutcome (List Nat) :=
  sidebar roleName (Except.ok (sql_filter_rows roleName db)) chosen

/-- The main conditional of the streamlit dashboard (streamlit_app/app.py
lines 233 and 415): the analysis - the Groq call of tab 1 and the score
query of tab 2 - runs exactly when the role name is nonempty and at least
one benchmark id is selected; otherwise only the info prompt renders. -/
def mainFlow (roleName : String) (benchmarkIds : List Nat) : List AppEvent :=
  if roleName ≠ "" ∧ benchmarkIds ≠ [] then [AppEvent.groqCall, AppEvent.talentQuery]
  else [AppEvent.infoPrompt]

/-- The notebook submission gate (notebooks/app.py lines 122-124): a
submission with any empty field or no selected benchmark employee is
rejected with an error and nothing below it runs. -/
def nbSubmissionAccepted (roleName jobLevel rolePurpose : String)
    (selected : List String) : Bool :=
  !(roleName.isEmpty || jobLevel.isEmpty || rolePurpose.isEmpty || selected.isEmpty)

/-- The notebook benchmark form (notebooks/app.py lines 73-86): the form
with the multiselect is rendered only when the employee list is
nonempty. -/
def nbOffersForm (employeeIds : List String) : Bool := !employeeIds.isEmpty

/-- One entry of the notebook employee_map (notebooks/app.py line 60):
a string employee id (a UUID in the database) with its fullname.  The
dict is keyed by employee_id, so entries have distinct ids and keep
query order. -/
structure NbEmployee where
  employee_id : String
  fullname : String
deriving DecidableEq

/-- Python string slicing s[:n], by characters. -/
def pyTake (n : Nat) (s : String) : String := String.mk (s.data.take n)

/-- The display label built for the multiselect and matched against on
the way back (notebooks/app.py lines 63 and 82):
f-string fullname, space, parenthesized first 8 characters of the id. -/
def nbLabel (fullname id2 : String) : String :=
  fullname ++ " (" ++ pyTake 8 id2 ++ ")"

/-- employee_names (notebooks/app.py line 63): one display label per
employee_map entry, in order. -/
def nbEmployeeNames (emps : List NbEmployee) : List String :=
  emps.map (fun e => nbLabel e.fullname e.employee_id)

/-- The notebook multiselect over display labels with max_selections=3:
the selection is drawn from the offered labels, at most 3 of them. -/
def nbMultiselectPick (options chosen : List String) : List String :=
  (chosen.filter (fun x => x ∈ options)).take 3

/-- selected_employees (notebooks/app.py line 82): every employee_map
entry whose rebuilt label occurs among the selected display names
contributes its id.  Distinct employees can share a label when their
fullnames and first 8 id characters coincide, in which case one selected
label contributes several ids. -/
def nbSelectedEmployees (emps : List NbEmployee) (selectedNames : List String) :
    List String :=
  (emps.filter (fun e => nbLabel e.fullname e.employee_id ∈ selectedNames)).map
    (fun e => e.employee_id)

/-- Four notebook employees forming two colliding label pairs: equal
fullnames and equal first 8 id characters. -/
def nbCollide : List NbEmployee :=
  [⟨"aaaaaaaa-0001", "Ann"⟩, ⟨"aaaaaaaa-0002", "Ann"⟩,
   ⟨"bbbbbbbb-0001", "Ben"⟩, ⟨"bbbbbbbb-0002", "Ben"⟩]

/-- The message displayed by the except branch of load_config
(streamlit_app/app.py line 49). -/
def configErrorMsg (e : String) : String := "Configuration error: " ++ e

/-- A call of load_config including its try/except wrapper
(streamlit_app/app.py lines 15-50): an exception raised while resolving
the sources (injected as bodyRaise) is caught by the except branch,
displayed, and turned into st.stop; otherwise a nonempty missing-keys
list displays its message and stops, and a complete configuration is
returned normally.  The first component is the displayed message, the
second the call outcome: the function never propagates an exception. -/
def load_config_call (bodyRaise : Option String)
    (envFile : Option (String → Option String))
    (secrets : String → Option String) :
    Option String × FnOutcome (String → Option String) :=
  match bodyRaise with
  | some e => (some (configErrorMsg e), FnOutcome.stopped)
  | none =>
    match load_config envFile secrets with
    | some cfg => (none, FnOutcome.ok cfg)
    | none =>
      (some ("Missing configuration keys: " ++
        String.intercalate ", " (requiredKeys.filter
          (fun k => !truthy (configLookup envFile secrets k)))),
        FnOutcome.stopped)

/-- The three failure classes named by the spec for the job-profile
generator: a transport error, an HTTP error status, or a body lacking the
expected completion fields. -/
def apiFailure : HttpOutcome → Prop
  | HttpOutcome.transportError _ => True
  | HttpOutcome.response status choices =>
    400 ≤ status ∨ choices = none ∨ choices = some [] ∨
      ∃ rest, choices = some (none :: rest)

/-- The key is absent from the local environment file: either the file
does not exist or its value for the key is falsy. -/
def absentFromEnvFile (envFile : Option (String → Option String))
    (k : String) : Prop :=
  match envFile with
  | none => True
  | some f => truthy (f k) = false

/-- The required secrets named by the claim, as keyed in the streamlit
dashboard. -/
def claimSecretKeys : List String := ["SUPABASE_URL", "SUPABASE_KEY", "GROQ_API_KEY"]

/-- The required secrets as keyed in the notebook. -/
def nbSecretKeys : List String :=
  ["SUPABASE_URL", "SUPABASE_SERVICE_KEY", "GROQ_API_KEY"]

/-- Concrete match-result rows used to instantiate the general theorems:
two employees with final match rates 80.0 and 60.5, two tv rows each,
with the lower-rated employee arriving first in the query result. -/
def dfTwo : List MatchRow :=
  [⟨2, "Bob", "Data Analyst", mkRat 121 2, "G1", "V1", 4, 3, 60, 60⟩,
   ⟨2, "Bob", "Data Analyst", mkRat 121 2, "G1", "V2", 4, 3, 61, 60⟩,
   ⟨1, "Alice", "Data Analyst", 80, "G1", "V1", 4, 4, 80, 80⟩,
   ⟨1, "Alice", "Data Analyst", 80, "G1", "V2", 4, 4, 80, 80⟩]

/-- Concrete match-result rows with a tie: two employees share the same
final_match_rate, employee 1 arriving first. -/
def dfTie : List MatchRow :=
  [⟨1, "Ann", "Analyst", 50, "G", "V1", 1, 1, 50, 50⟩,
   ⟨2, "Ben", "Analyst", 50, "G", "V1", 1, 1, 50, 50⟩,
   ⟨1, "Ann", "Analyst", 50, "G", "V2", 1, 1, 50, 50⟩]

/-- A one-employee database snapshot used for concrete lookups. -/
def dbOne : List Employee := [⟨7, "Cara", "Engineer"⟩]

/-- A three-employee database snapshot with two data positions. -/
def dbThree : List Employee :=
  [⟨3, "Ann", "Data Analyst"⟩, ⟨1, "Bo", "data engineer"⟩, ⟨2, "Cy", "Manager"⟩]

theorem perm_insertSorted (le : α → α → Bool) (a : α) (l : List α) :
    (insertSorted le a l).Perm (a :: l) := by
  induction l with
  | nil => simp [insertSorted]
  | cons x xs ih =>
    by_cases h : le a x = true
    · simp [insertSorted, h]
    · rw [Bool.not_eq_true] at h
      simp only [insertSorted, h, Bool.false_eq_true, if_false]
      exact (ih.cons x).trans (List.Perm.swap a x xs)

theorem perm_insertionSort (le : α → α → Bool) (l : List α) :
    (insertionSort le l).Perm l := by
  induction l with
  | nil => exact List.Perm.refl []
  | cons x xs ih => exact (perm_insertSorted le x _).trans (ih.cons x)

theorem pairwise_insertSorted (le : α → α → Bool)
    (total : ∀ a b, le a b = true ∨ le b a = true)
    (htrans : ∀ a b c, le a b = true → le b c = true → le a c = true)
    (a : α) (l : List α) (h : l.Pairwise (fun x y => le x y = true)) :
    (insertSorted le a l).Pairwise (fun x y => le x y = true) := by
  induction l with
  | nil => simp [insertSorted]
  | cons x xs ih =>
    rcases List.pairwise_cons.mp h with ⟨hx, hxs⟩
    by_cases hax : le a x = true
    · simp only [insertSorted, hax, if_true]
      refine List.pairwise_cons.mpr ⟨?_, h⟩
      intro y hy
      rcases List.mem_cons.mp hy with rfl | hy2
      · exact hax
      · exact htrans a x y hax (hx y hy2)
    · have hax2 := hax
      rw [Bool.not_eq_true] at hax2
      simp only [insertSorted, hax2, Bool.false_eq_true, if_false]
      refine List.pairwise_cons.mpr ⟨?_, ih hxs⟩
      intro y hy
      rcases List.mem_cons.mp ((perm_insertSorted le a xs).mem_iff.mp hy) with rfl | hy2
      · rcases total y x with h1 | h1
        · exact absurd h1 hax
        · exact h1
      · exact hx y hy2

theorem pairwise_insertionSort (le : α → α → Bool)
    (total : ∀ a b, le a b = true ∨ le b a = true)
    (htrans : ∀ a b c, le a b = true → le b c = true → le a c = true)
    (l : List α) :
    (insertionSort le l).Pairwise (fun x y => le x y = true) := by
  induction l with
  | nil => simp [insertionSort]
  | cons x xs ih => exact pairwise_insertSorted le total htrans x _ ih

theorem map_employeeId_dropDupFirstAux (seen : List Nat) (l : List RankedEntry) :
    (dropDupFirstAux seen l).map (fun r => r.employee_id) =
      eraseDupFirstAux seen (l.map (fun r => r.employee_id)) := by
  induction l generalizing seen with
  | nil => rfl
  | cons r rs ih =>
    by_cases h : r.employee_id ∈ seen
    · simp [dropDupFirstAux, eraseDupFirstAux, h, ih]
    · simp [dropDupFirstAux, eraseDupFirstAux, h, ih]

theorem not_mem_seen_of_mem_eraseDupFirstAux (seen l : List Nat) :
    ∀ y ∈ eraseDupFirstAux seen l, y ∉ seen := by
  induction l generalizing seen with
  | nil => intro y hy; simp [eraseDupFirstAux] at hy
  | cons x xs ih =>
    intro y hy
    by_cases h : x ∈ seen
    · rw [eraseDupFirstAux, if_pos h] at hy
      exact ih seen y hy
    · rw [eraseDupFirstAux, if_neg h] at hy
      rcases List.mem_cons.mp hy with rfl | hy2
      · exact h
      · have := ih (x :: seen) y hy2
        exact fun hc => this (List.mem_cons_of_mem x hc)

theorem nodup_eraseDupFirstAux (seen l : List Nat) :
    (eraseDupFirstAux seen l).Nodup := by
  induction l generalizing seen with
  | nil => simp [eraseDupFirstAux]
  | cons x xs ih =>
    by_cases h : x ∈ seen
    · rw [eraseDupFirstAux, if_pos h]
      exact ih seen
    · rw [eraseDupFirstAux, if_neg h]
      refine List.nodup_cons.mpr ⟨?_, ih (x :: seen)⟩
      intro hc
      exact not_mem_seen_of_mem_eraseDupFirstAux (x :: seen) xs x hc (List.mem_cons_self x seen)

theorem map_fst_attachRanks (n : Nat) (l : List RankedEntry) :
    (attachRanks n l).map Prod.fst = List.range' n l.length := by
  induction l generalizing n with
  | nil => rfl
  | cons e es ih => simp [attachRanks, List.range'_succ, ih]

theorem map_snd_attachRanks (n : Nat) (l : List RankedEntry) :
    (attachRanks n l).map Prod.snd = l := by
  induction l generalizing n with
  | nil => rfl
  | cons e es ih => simp [attachRanks, ih]

theorem length_attachRanks (n : Nat) (l : List RankedEntry) :
    (attachRanks n l).length = l.length := by
  induction l generalizing n with
  | nil => rfl
  | cons e es ih => simp [attachRanks, ih]

theorem rateGE_total (a b : RankedEntry) : rateGE a b = true ∨ rateGE b a = true := by
  simp only [rateGE, decide_eq_true_eq]
  exact le_total b.final_match_rate a.final_match_rate

theorem rateGE_trans (a b c : RankedEntry) (h1 : rateGE a b = true)
    (h2 : rateGE b c = true) : rateGE a c = true := by
  simp only [rateGE, decide_eq_true_eq] at h1 h2 ⊢
  exact le_trans h2 h1

theorem pairwise_rankedBase (df : List MatchRow) :
    (rankedBase df).Pairwise (fun a b => b.final_match_rate ≤ a.final_match_rate) := by
  have h := pairwise_insertionSort rateGE rateGE_total rateGE_trans (dedupEntries df)
  exact h.imp fun hab => of_decide_eq_true hab

theorem map_snd_ranked (df : List MatchRow) :
    (ranked_employees df).map Prod.snd = rankedBase df :=
  map_snd_attachRanks 1 (rankedBase df)

theorem rankedBase_perm_dedup (df : List MatchRow) :
    (rankedBase df).Perm (dedupEntries df) :=
  perm_insertionSort rateGE (dedupEntries df)

theorem map_id_dedupEntries (df : List MatchRow) :
    (dedupEntries df).map (fun r => r.employee_id) = distinctIds df := by
  rw [dedupEntries, map_employeeId_dropDupFirstAux, distinctIds]
  simp [selectCols, List.map_map]
  rfl

theorem map_id_ranked (df : List MatchRow) :
    (ranked_employees df).map (fun p => p.2.employee_id) =
      (rankedBase df).map (fun r => r.employee_id) := by
  rw [show (fun p : Nat × RankedEntry => p.2.employee_id) =
      (fun r : RankedEntry => r.employee_id) ∘ Prod.snd from rfl]
  rw [← List.map_map, map_snd_ranked]

theorem ranked_ids_perm_distinct (df : List MatchRow) :
    ((ranked_employees df).map (fun p => p.2.employee_id)).Perm (distinctIds df) := by
  rw [map_id_ranked, ← map_id_dedupEntries]
  exact (rankedBase_perm_dedup df).map _

/-- Claim C1: for a match-result DataFrame with rows for N distinct
employees (several rows per employee, final_match_rate constant per
employee), the rendered ranking has exactly N rows, one per unique
employee_id, ordered by descending final_match_rate. -/
theorem C1_ranking_n_rows_desc (df : List MatchRow) (hne : df ≠ [])
    (hconst : ∀ r1 ∈ df, ∀ r2 ∈ df,
      r1.employee_id = r2.employee_id → r1.final_match_rate = r2.final_match_rate) :
    (ranked_employees df).length = (distinctIds df).length
    ∧ ((ranked_employees df).map (fun p => p.2.employee_id)).Perm (distinctIds df)
    ∧ ((ranked_employees df).map (fun p => p.2.employee_id)).Nodup
    ∧ ((ranked_employees df).map Prod.snd).Pairwise
        (fun a b => b.final_match_rate ≤ a.final_match_rate) := by
  refine ⟨?_, ranked_ids_perm_distinct df, ?_, ?_⟩
  · have h1 := (ranked_ids_perm_distinct df).length_eq
    simpa using h1
  · refine ((ranked_ids_perm_distinct df).nodup_iff).mpr ?_
    rw [distinctIds]
    exact nodup_eraseDupFirstAux _ _
  · rw [map_snd_ranked]
    exact pairwise_rankedBase df

/-- Witness for C1 at the two-employee DataFrame with rates 80.0 and
60.5 (the lower-rated employee arriving first): the theorem applies, and
the top row of the rendered ranking is the employee with rate 80.0 at
rank 1. -/
theorem C1_ranking_n_rows_desc_witness :
    ((ranked_employees dfTwo).length = (distinctIds dfTwo).length
    ∧ ((ranked_employees dfTwo).map (fun p => p.2.employee_id)).Perm (distinctIds dfTwo)
    ∧ ((ranked_employees dfTwo).map (fun p => p.2.employee_id)).Nodup
    ∧ ((ranked_employees dfTwo).map Prod.snd).Pairwise
        (fun a b => b.final_match_rate ≤ a.final_match_rate))
    ∧ (ranked_employees dfTwo).length = 2
    ∧ (ranked_employees dfTwo).head? = some (1, ⟨1, "Alice", "Data Analyst", 80⟩) :=
  ⟨C1_ranking_n_rows_desc dfTwo (by decide) (by decide), by decide, by decide⟩

/-- Claim C10: the Rank column of the rendered ranking is exactly the
consecutive integers 1..N in row order, and the rows are in descending
final_match_rate order, so each rank equals the 1-based position of its
row in that order. -/
theorem C10_rank_consecutive (df : List MatchRow) (hne : df ≠ []) :
    (ranked_employees df).map Prod.fst = List.range' 1 (rankedBase df).length
    ∧ ((ranked_employees df).map Prod.fst).Nodup
    ∧ (ranked_employees df).map Prod.snd = rankedBase df
    ∧ ((ranked_employees df).map Prod.snd).Pairwise
        (fun a b => b.final_match_rate ≤ a.final_match_rate) := by
  refine ⟨map_fst_attachRanks 1 (rankedBase df), ?_, map_snd_ranked df, ?_⟩
  · rw [ranked_employees, map_fst_attachRanks]
    exact List.nodup_range' _ _
  · rw [map_snd_ranked]
    exact pairwise_rankedBase df

/-- Witness for C10 at the tied three-row DataFrame: ranks are [1, 2]
and no rank is skipped or duplicated despite the tie. -/
theorem C10_rank_consecutive_witness :
    ((ranked_employees dfTie).map Prod.fst = List.range' 1 (rankedBase dfTie).length
    ∧ ((ranked_employees dfTie).map Prod.fst).Nodup
    ∧ (ranked_employees dfTie).map Prod.snd = rankedBase dfTie
    ∧ ((ranked_employees dfTie).map Prod.snd).Pairwise
        (fun a b => b.final_match_rate ≤ a.final_match_rate))
    ∧ (ranked_employees dfTie).map Prod.fst = [1, 2] :=
  ⟨C10_rank_consecutive dfTie (by decide), by decide⟩

theorem idLE_total (a b : Employee) : idLE a b = true ∨ idLE b a = true := by
  simp only [idLE, decide_eq_true_eq]
  exact Nat.le_total a.employee_id b.employee_id

theorem idLE_trans (a b c : Employee) (h1 : idLE a b = true) (h2 : idLE b c = true) :
    idLE a c = true := by
  simp only [idLE, decide_eq_true_eq] at h1 h2 ⊢
  exact Nat.le_trans h1 h2

/-- Claim C9: the benchmark-selection options are the matching employee
ids in ascending employee_id order: the option list is sorted ascending
and is a permutation of the ids of the ILIKE-matching employees. -/
theorem C9_options_ascending (roleName : String) (db : List Employee) :
    List.Pairwise (fun a b : Nat => a ≤ b) (emp_ids_options roleName db)
    ∧ (emp_ids_options roleName db).Perm
        ((db.filter (fun e => ilike ("%" ++ roleName ++ "%") e.position)).map
          (fun e => e.employee_id)) := by
  constructor
  · rw [emp_ids_options]
    refine List.pairwise_map.mpr ?_
    have h := pairwise_insertionSort idLE idLE_total idLE_trans
      (db.filter (fun e => ilike ("%" ++ roleName ++ "%") e.position))
    exact h.imp fun hab => of_decide_eq_true hab
  · exact (perm_insertionSort idLE _).map _

theorem length_nbSelected_le (emps : List NbEmployee) (chosen : List String)
    (hnodup : (nbEmployeeNames emps).Nodup) :
    (nbSelectedEmployees emps
      (nbMultiselectPick (nbEmployeeNames emps) chosen)).length ≤ 3 := by
  have hsel : (nbMultiselectPick (nbEmployeeNames emps) chosen).length ≤ 3 :=
    List.length_take_le 3 _
  set sel := nbMultiselectPick (nbEmployeeNames emps) chosen with hseldef
  have hsub : List.Sublist
      ((emps.filter (fun e => nbLabel e.fullname e.employee_id ∈ sel)).map
        (fun e => nbLabel e.fullname e.employee_id))
      (nbEmployeeNames emps) :=
    (List.filter_sublist emps).map _
  have hnd : ((emps.filter (fun e => nbLabel e.fullname e.employee_id ∈ sel)).map
      (fun e => nbLabel e.fullname e.employee_id)).Nodup :=
    hnodup.sublist hsub
  have hsubset : (emps.filter (fun e => nbLabel e.fullname e.employee_id ∈ sel)).map
      (fun e => nbLabel e.fullname e.employee_id) ⊆ sel := by
    intro x hx
    rcases List.mem_map.mp hx with ⟨e, he, rfl⟩
    exact of_decide_eq_true (List.mem_filter.mp he).2
  have hle : ((emps.filter (fun e => nbLabel e.fullname e.employee_id ∈ sel)).map
      (fun e => nbLabel e.fullname e.employee_id)).length ≤ sel.length :=
    (hnd.subperm hsubset).length_le
  calc (nbSelectedEmployees emps sel).length
      = ((emps.filter (fun e => nbLabel e.fullname e.employee_id ∈ sel)).map
          (fun e => nbLabel e.fullname e.employee_id)).length := by
        simp [nbSelectedEmployees]
    _ ≤ sel.length := hle
    _ ≤ 3 := hsel

/-- Counterexample to claim C4: in the notebook, employees sharing a
fullname and the first 8 characters of their id collapse to one display
label; selecting the two labels of four such employees (2 selections, at
most 3 allowed) maps back to 4 benchmark identifiers, and the submission
with those 4 identifiers is accepted, so the analysis runs with more than
3 benchmark identifiers. -/
theorem C4_selection_gate_cex :
    (nbMultiselectPick (nbEmployeeNames nbCollide)
        ["Ann (aaaaaaaa)", "Ben (bbbbbbbb)"]).length = 2
    ∧ nbSelectedEmployees nbCollide
        (nbMultiselectPick (nbEmployeeNames nbCollide)
          ["Ann (aaaaaaaa)", "Ben (bbbbbbbb)"]) =
        ["aaaaaaaa-0001", "aaaaaaaa-0002", "bbbbbbbb-0001", "bbbbbbbb-0002"]
    ∧ (nbSelectedEmployees nbCollide
        (nbMultiselectPick (nbEmployeeNames nbCollide)
          ["Ann (aaaaaaaa)", "Ben (bbbbbbbb)"])).length = 4
    ∧ nbSubmissionAccepted "Role" "Lead" "Purpose"
        (nbSelectedEmployees nbCollide
          (nbMultiselectPick (nbEmployeeNames nbCollide)
            ["Ann (aaaaaaaa)", "Ben (bbbbbbbb)"])) = true :=
  ⟨by decide, by decide, by decide, by decide⟩

/-- Claim C4 as amended: in the dashboard the selection never exceeds 3
ids, with no id selected the score query does not run, and the score
query runs exactly when the role name is nonempty and between 1 and 3 ids
are selected.  In the notebook a submission with no selected benchmark
employee is rejected and the multiselect bounds the selected display
labels at 3; the selected identifiers are also at most 3 whenever the
display labels are pairwise distinct, but colliding labels can map one
selection to several identifiers. -/
theorem C4_selection_gate (roleName : String) (db : List Employee) (chosen : List Nat) :
    (benchmark_ids roleName db chosen).length ≤ 3
    ∧ (benchmark_ids roleName db chosen = [] →
        AppEvent.talentQuery ∉ mainFlow roleName (benchmark_ids roleName db chosen))
    ∧ (AppEvent.talentQuery ∈ mainFlow roleName (benchmark_ids roleName db chosen) →
        1 ≤ (benchmark_ids roleName db chosen).length
        ∧ (benchmark_ids roleName db chosen).length ≤ 3)
    ∧ (roleName ≠ "" → benchmark_ids roleName db chosen ≠ [] →
        AppEvent.talentQuery ∈ mainFlow roleName (benchmark_ids roleName db chosen))
    ∧ (∀ r j p, nbSubmissionAccepted r j p [] = false)
    ∧ (∀ emps chosenN,
        (nbMultiselectPick (nbEmployeeNames emps) chosenN).length ≤ 3)
    ∧ (∀ emps chosenN, (nbEmployeeNames emps).Nodup →
        (nbSelectedEmployees emps
          (nbMultiselectPick (nbEmployeeNames emps) chosenN)).length ≤ 3) := by
  have hlen : (benchmark_ids roleName db chosen).length ≤ 3 := by
    rw [benchmark_ids, multiselectPick]
    exact List.length_take_le 3 (chosen.filter (fun x => x ∈ emp_ids_options roleName db))
  refine ⟨hlen, ?_, ?_, ?_, ?_, ?_, ?_⟩
  · intro hempty
    rw [mainFlow, if_neg]
    · simp
    · rintro ⟨-, hne⟩
      exact hne hempty
  · intro hmem
    by_cases hcond : roleName ≠ "" ∧ benchmark_ids roleName db chosen ≠ []
    · refine ⟨?_, hlen⟩
      rcases hcond with ⟨-, hne⟩
      have := List.length_pos.mpr hne
      omega
    · rw [mainFlow, if_neg hcond] at hmem
      simp at hmem
  · intro h1 h2
    rw [mainFlow, if_pos ⟨h1, h2⟩]
    simp
  · intro r j p
    simp [nbSubmissionAccepted]
  · intro emps chosenN
    exact List.length_take_le 3 _
  · intro emps chosenN hnodup
    exact length_nbSelected_le emps chosenN hnodup

/-- Witness for C4 as amended at role Data over the three-employee
database with an attempted selection [9, 1, 3]: the widget keeps exactly
the offered ids 1 and 3 in click order, and the analysis branch fires. -/
theorem C4_selection_gate_witness :
    (benchmark_ids "Data" dbThree [9, 1, 3]).length ≤ 3
    ∧ benchmark_ids "Data" dbThree [9, 1, 3] = [1, 3]
    ∧ mainFlow "Data" [1, 3] = [AppEvent.groqCall, AppEvent.talentQuery]
    ∧ nbSubmissionAccepted "Role" "Lead" "Purpose" [] = false
    ∧ (nbSelectedEmployees [⟨"aaaaaaaa-0001", "Ann"⟩, ⟨"bbbbbbbb-0001", "Ben"⟩]
        (nbMultiselectPick
          (nbEmployeeNames [⟨"aaaaaaaa-0001", "Ann"⟩, ⟨"bbbbbbbb-0001", "Ben"⟩])
          ["Ann (aaaaaaaa)"])).length ≤ 3 :=
  ⟨(C4_selection_gate "Data" dbThree [9, 1, 3]).1, by decide, by decide,
   (C4_selection_gate "Data" dbThree [9, 1, 3]).2.2.2.2.1 "Role" "Lead" "Purpose",
   (C4_selection_gate "Data" dbThree [9, 1, 3]).2.2.2.2.2.2
     [⟨"aaaaaaaa-0001", "Ann"⟩, ⟨"bbbbbbbb-0001", "Ben"⟩]
     ["Ann (aaaaaaaa)"] (by decide)⟩

/-- Counterexample to claim C7: with role zzz over a database whose only
position is Engineer the lookup returns no employees, yet the dashboard
still renders the benchmark multiselect widget (with an empty option
list): a selection control is offered, contrary to the claim. -/
theorem C7_no_control_cex :
    sql_filter_rows "zzz" dbOne = []
    ∧ Widget.multiselectW [] ∈ (sidebarOnDb "zzz" dbOne []).1 :=
  ⟨by decide, by decide⟩

/-- Claim C7 as amended: when the lookup returns zero employees the
option list is empty; the dashboard still renders the multiselect, but
with an empty option list and a warning, so no id can be selected and the
score query cannot run; the notebook renders no selection form at all. -/
theorem C7_empty_lookup_amended (roleName : String) (db : List Employee)
    (chosen : List Nat) (hrole : roleName ≠ "")
    (h : sql_filter_rows roleName db = []) :
    emp_ids_options roleName db = []
    ∧ (sidebarOnDb roleName db chosen).1 =
        [Widget.multiselectW [], Widget.warningW (noEmployeesMsg roleName)]
    ∧ (sidebarOnDb roleName db chosen).2 = FnOutcome.ok []
    ∧ AppEvent.talentQuery ∉ mainFlow roleName []
    ∧ nbOffersForm [] = false := by
  have hopts : emp_ids_options roleName db = [] := by
    rw [emp_ids_options, h]
    rfl
  have hpick : multiselectPick [] chosen = [] := by
    simp [multiselectPick]
  refine ⟨hopts, ?_, ?_, ?_, rfl⟩
  · simp [sidebarOnDb, sidebar, if_neg hrole, h]
  · simp [sidebarOnDb, sidebar, if_neg hrole, h, hpick]
  · rw [mainFlow, if_neg]
    · simp
    · rintro ⟨-, hne⟩
      exact hne rfl

/-- Witness for C7 as amended at role zzz over the one-employee database:
the sidebar renders the empty multiselect plus the warning, the selection
is empty, and the analysis does not run. -/
theorem C7_empty_lookup_amended_witness :
    emp_ids_options "zzz" dbOne = []
    ∧ (sidebarOnDb "zzz" dbOne [5]).1 =
        [Widget.multiselectW [], Widget.warningW (noEmployeesMsg "zzz")]
    ∧ (sidebarOnDb "zzz" dbOne [5]).2 = FnOutcome.ok []
    ∧ AppEvent.talentQuery ∉ mainFlow "zzz" []
    ∧ nbOffersForm [] = false :=
  C7_empty_lookup_amended "zzz" dbOne [5] (by decide) (by decide)

/-- Counterexample to claim C6: in the notebook, when the local env file
exists but holds no GROQ_API_KEY and the secrets store is empty, the
hosted-API key is absent from both sources, yet the configuration block
completes without stopping (os.getenv values are never validated). -/
theorem C6_missing_key_cex :
    nb_load_config true
      (fun k => if k = "SUPABASE_URL" then some "u"
        else if k = "SUPABASE_SERVICE_KEY" then some "s" else none)
      (fun _ => none) = some (some "u", some "s", none)
    ∧ (nb_load_config true
      (fun k => if k = "SUPABASE_URL" then some "u"
        else if k = "SUPABASE_SERVICE_KEY" then some "s" else none)
      (fun _ => none)).isSome = true :=
  ⟨by decide, by decide⟩

/-- Claim C6 as amended: the dashboard loader stops (before any database
or API call) whenever one of the three claimed secrets is absent from the
source in use, hence whenever it is absent from both; the notebook stops
only on its secrets-store branch, while an existing env file with missing
keys loads unvalidated values. -/
theorem C6_config_stop_amended (envFile : Option (String → Option String))
    (secrets : String → Option String) (k : String) (hk : k ∈ claimSecretKeys)
    (h1 : absentFromEnvFile envFile k) (h2 : truthy (secrets k) = false) :
    load_config envFile secrets = none
    ∧ appStartup envFile secrets = [AppEvent.configStop]
    ∧ AppEvent.dbConnect ∉ appStartup envFile secrets
    ∧ (∀ ef k2, k2 ∈ nbSecretKeys → secrets k2 = none →
        nb_load_config false ef secrets = none) := by
  have hget : truthy (configLookup envFile secrets k) = false := by
    cases envFile with
    | none => exact h2
    | some f => exact h1
  have hkreq : k ∈ requiredKeys := by
    fin_cases hk <;> decide
  have hmem : k ∈ requiredKeys.filter
      (fun k2 => !truthy (configLookup envFile secrets k2)) :=
    List.mem_filter.mpr ⟨hkreq, by rw [hget]; rfl⟩
  have hne : (requiredKeys.filter
      (fun k2 => !truthy (configLookup envFile secrets k2))).isEmpty = false := by
    cases hEmp : (requiredKeys.filter
        (fun k2 => !truthy (configLookup envFile secrets k2))).isEmpty
    · rfl
    · rw [List.isEmpty_iff] at hEmp
      rw [hEmp] at hmem
      exact absurd hmem (List.not_mem_nil k)
  have hnone : load_config envFile secrets = none := by
    rw [load_config]
    simp [hne]
  refine ⟨hnone, ?_, ?_, ?_⟩
  · rw [appStartup, hnone]
  · rw [appStartup, hnone]
    simp
  · intro ef k2 hk2 hsec
    fin_cases hk2
    · simp [nb_load_config, hsec]
    · cases hu : secrets "SUPABASE_URL" <;> simp [nb_load_config, hu, hsec]
    · cases hu : secrets "SUPABASE_URL" <;>
        cases hs : secrets "SUPABASE_SERVICE_KEY" <;>
          simp [nb_load_config, hu, hs, hsec]

/-- Witness for C6 as amended: with no env file and an empty secrets
store the dashboard stops during configuration loading and never reaches
the database connection. -/
theorem C6_config_stop_amended_witness :
    load_config none (fun _ => none) = none
    ∧ appStartup none (fun _ => none) = [AppEvent.configStop]
    ∧ AppEvent.dbConnect ∉ appStartup none (fun _ => none) :=
  ⟨(C6_config_stop_amended none (fun _ => none) "SUPABASE_URL"
      (by decide) (by trivial) rfl).1,
   (C6_config_stop_amended none (fun _ => none) "SUPABASE_URL"
      (by decide) (by trivial) rfl).2.1,
   (C6_config_stop_amended none (fun _ => none) "SUPABASE_URL"
      (by decide) (by trivial) rfl).2.2.1⟩

/-- Counterexample to claim C3: the notebook generator returns different
fallback strings for a transport error and for a body without a choices
field, raises on a body with an empty choices list, and the dashboard
generator returns the body content, not the fallback, for a non-2xx
status below 400 with a well-formed body. -/
theorem C3_single_fallback_cex :
    nb_generate_job_profile (some "key") (HttpOutcome.transportError "refused") =
      FnOutcome.ok nbRequestErrMsg
    ∧ nb_generate_job_profile (some "key") (HttpOutcome.response 200 none) =
      FnOutcome.ok nbNoChoicesMsg
    ∧ nbRequestErrMsg ≠ nbNoChoicesMsg
    ∧ nb_generate_job_profile (some "key") (HttpOutcome.response 200 (some [])) =
      FnOutcome.raised "IndexError"
    ∧ generate_job_profile (HttpOutcome.response 301 (some [some "redirect body"])) =
      "redirect body"
    ∧ "redirect body" ≠ fallbackProfile :=
  ⟨by decide, by decide, by decide, by decide, by decide, by decide⟩

theorem generate_job_profile_fallback (api : HttpOutcome) (h : apiFailure api) :
    generate_job_profile api = fallbackProfile := by
  cases api with
  | transportError m => rfl
  | response status choices =>
    rcases h with hs | hc | hc | ⟨rest, hc⟩
    · simp [generate_job_profile, hs]
    · subst hc
      by_cases h4 : 400 ≤ status <;> simp [generate_job_profile, h4]
    · subst hc
      by_cases h4 : 400 ≤ status <;> simp [generate_job_profile, h4]
    · subst hc
      by_cases h4 : 400 ≤ status <;> simp [generate_job_profile, h4]

/-- Claim C3 as amended: the dashboard generator returns the one fixed
fallback string, without raising, for every transport error, every 4xx or
5xx status, and every body lacking or malformed in the completion fields.
The notebook generator instead returns one fixed message for request
failures (transport errors and the HTTPError that raise_for_status turns
a 4xx or 5xx status into), a different fixed message for a body without a
choices field, and propagates an exception for a 2xx body whose choices
list is empty (IndexError) or whose first choice lacks the nested
message/content fields (KeyError). -/
theorem C3_fallback_amended (api : HttpOutcome) (h : apiFailure api) :
    generate_job_profile api = fallbackProfile
    ∧ (∀ key m, truthy key = true →
        nb_generate_job_profile key (HttpOutcome.transportError m) =
          FnOutcome.ok nbRequestErrMsg)
    ∧ (∀ key, truthy key = true →
        nb_generate_job_profile key (HttpOutcome.response 200 none) =
          FnOutcome.ok nbNoChoicesMsg)
    ∧ (∀ key status choices, truthy key = true → 400 ≤ status →
        nb_generate_job_profile key (HttpOutcome.response status choices) =
          FnOutcome.ok nbRequestErrMsg)
    ∧ (∀ key status, truthy key = true → status < 400 →
        nb_generate_job_profile key (HttpOutcome.response status (some [])) =
          FnOutcome.raised "IndexError")
    ∧ (∀ key status rest, truthy key = true → status < 400 →
        nb_generate_job_profile key (HttpOutcome.response status (some (none :: rest))) =
          FnOutcome.raised "KeyError") := by
  refine ⟨generate_job_profile_fallback api h, ?_, ?_, ?_, ?_, ?_⟩
  · intro key m hkey
    simp [nb_generate_job_profile, hkey]
  · intro key hkey
    simp [nb_generate_job_profile, hkey]
  · intro key status choices hkey h400
    simp [nb_generate_job_profile, hkey, h400]
  · intro key status hkey h400
    have hn : ¬ 400 ≤ status := by omega
    simp [nb_generate_job_profile, hkey, hn]
  · intro key status rest hkey h400
    have hn : ¬ 400 ≤ status := by omega
    simp [nb_generate_job_profile, hkey, hn]

/-- Witness for C3 as amended at concrete inputs: a 500 status with a
well-formed body yields the dashboard fallback; the notebook returns its
request-failure message for a 503 status, and raises KeyError for a 2xx
body whose first choice is malformed. -/
theorem C3_fallback_amended_witness :
    generate_job_profile (HttpOutcome.response 500 (some [some "body"])) =
      fallbackProfile
    ∧ nb_generate_job_profile (some "key") (HttpOutcome.response 503 none) =
        FnOutcome.ok nbRequestErrMsg
    ∧ nb_generate_job_profile (some "key") (HttpOutcome.response 200 (some [none])) =
        FnOutcome.raised "KeyError" :=
  ⟨(C3_fallback_amended (HttpOutcome.response 500 (some [some "body"]))
      (Or.inl (by decide))).1,
   (C3_fallback_amended (HttpOutcome.response 500 (some [some "body"]))
      (Or.inl (by decide))).2.2.2.1 (some "key") 503 none rfl (by decide),
   (C3_fallback_amended (HttpOutcome.response 500 (some [some "body"]))
      (Or.inl (by decide))).2.2.2.2.2 (some "key") 200 [] rfl (by decide)⟩

/-- Counterexample to claim C8: run_query converts its exception to a
display string and then re-raises it with a bare raise, so the exception
does propagate to the caller. -/
theorem C8_no_propagation_cex :
    run_query (Except.error "boom") =
      (some (queryErrorMsg "boom"), FnOutcome.raised "boom")
    ∧ propagates (run_query (Except.error "boom")).2 = true :=
  ⟨rfl, rfl⟩

/-- Claim C8 as amended: configuration load catches any exception of its
body, displays it and stops, and never propagates an exception (a missing
required key likewise displays and stops); SQL load catches, displays and
stops; the API call catches every failure class and substitutes the fixed
fallback; query execution displays its error but re-raises, and the
re-raise halts the interaction: uncaught in the analysis tab, and via an
unbound-variable error after the except block in the sidebar. -/
theorem C8_boundary_errors_amended (e n m sqlText roleName : String)
    (chosen : List Nat) (hrole : roleName ≠ "") :
    load_sql (Except.error (PyErr.fileNotFound n)) =
      (some ("SQL file not found: queries/" ++ n), FnOutcome.stopped)
    ∧ load_sql (Except.error (PyErr.other m)) =
      (some ("Error loading SQL file: " ++ m), FnOutcome.stopped)
    ∧ run_query (Except.error e) = (some (queryErrorMsg e), FnOutcome.raised e)
    ∧ tab2_outcome (Except.ok sqlText) (Except.error e) = FnOutcome.raised e
    ∧ (sidebar roleName (Except.error e) chosen).1 =
        [Widget.errorW (queryErrorMsg e), Widget.errorW (loadIdsErrorMsg e)]
    ∧ (sidebar roleName (Except.error e) chosen).2 =
        FnOutcome.raised "NameError: name emp_ids is not defined"
    ∧ (∀ ce ef sec, load_config_call (some ce) ef sec =
        (some (configErrorMsg ce), FnOutcome.stopped))
    ∧ (∀ b ef sec, propagates (load_config_call b ef sec).2 = false)
    ∧ (∀ ef sec, load_config ef sec = none →
        (load_config_call none ef sec).2 = FnOutcome.stopped
        ∧ ((load_config_call none ef sec).1).isSome = true)
    ∧ (∀ api, apiFailure api → generate_job_profile api = fallbackProfile) := by
  refine ⟨rfl, rfl, rfl, rfl, ?_, ?_, fun _ _ _ => rfl, ?_, ?_,
    fun api h => generate_job_profile_fallback api h⟩
  · simp [sidebar, if_neg hrole]
  · simp [sidebar, if_neg hrole]
  · intro b ef sec
    cases b with
    | some ce => rfl
    | none =>
      cases hc : load_config ef sec <;> simp [load_config_call, hc, propagates]
  · intro ef sec h
    exact ⟨by simp [load_config_call, h], by simp [load_config_call, h]⟩

/-- Witness for C8 as amended at concrete inputs: the analysis tab
outcome on a failing query is the re-raised exception, the sidebar run
dies on the unbound emp_ids name, and a configuration-load exception is
caught, displayed, and turned into a stop rather than re-raised. -/
theorem C8_boundary_errors_amended_witness :
    tab2_outcome (Except.ok "SELECT 1") (Except.error "boom") =
      FnOutcome.raised "boom"
    ∧ (sidebar "Data" (Except.error "boom") []).2 =
        FnOutcome.raised "NameError: name emp_ids is not defined"
    ∧ load_config_call (some "bad secrets toml") none (fun _ => none) =
        (some (configErrorMsg "bad secrets toml"), FnOutcome.stopped)
    ∧ propagates (load_config_call (some "bad secrets toml") none (fun _ => none)).2 =
        false :=
  ⟨(C8_boundary_errors_amended "boom" "talent_match.sql" "oops" "SELECT 1" "Data" []
      (by decide)).2.2.2.1,
   (C8_boundary_errors_amended "boom" "talent_match.sql" "oops" "SELECT 1" "Data" []
      (by decide)).2.2.2.2.2.1,
   (C8_boundary_errors_amended "boom" "talent_match.sql" "oops" "SELECT 1" "Data" []
      (by decide)).2.2.2.2.2.2.1 "bad secrets toml" none (fun _ => none),
   (C8_boundary_errors_amended "boom" "talent_match.sql" "oops" "SELECT 1" "Data" []
      (by decide)).2.2.2.2.2.2.2.1 (some "bad secrets toml") none (fun _ => none)⟩

end TalentMatch
